import Mathlib

/-!
Shallow embedding of the ABNF grammar compiler and matcher of this
repository (src/lib/parser.js, src/lib/core.js, and the bundled variants
src/unnamed/part_001 and src/unnamed/part_002).

The JavaScript source operates on strings and arrays; tokens are strings
(the resolver compares tokens against string constants and calls string
methods on them), the matcher input is a sequence indexed element by
element.  We embed:
  - JS string helpers (`slice`, `indexOf`, `parseInt`, unary `+`,
    `String.fromCharCode`) with JS semantics where the code relies on
    them (negative slice indices, `-1` for a missing `indexOf`, `NaN`
    results modelled as `Option`/`JSNum.nan`);
  - the resolver functions `parseGroup`, `parseSubRule`,
    `parseRepetition`, `parseLiteral` (src/lib/parser.js lines 178-284)
    over string token lists, with thrown JS exceptions modelled as
    `Except.error`;
  - the token grouping pass of the `Source` constructor
    (src/unnamed/part_001 lines 159-225, identical in
    src/lib/parser.js lines 103-168 except that the latter omits the
    `tokensByRule = {}` initialisation);
  - the `< 3` token check of `Source$1` (src/unnamed/part_002 lines
    252-265);
  - the `test` methods of the combinator node classes
    (src/lib/parser.js lines 371-507), with the out-of-fuel case of the
    unbounded repetition loop modelled as `Option.none` and a thrown
    `TypeError` modelled as `TestResult.err`.
-/

namespace ABNF

/-- A single apostrophe, used in error messages built by the source
(`"Undefined rule: '" + token + "'"`). -/
def squote : String := String.singleton (Char.ofNat 39)

/-- JS `String.prototype.indexOf` for a single-character needle:
the index of the first occurrence, `-1` when absent. -/
def jsIndexOf (c : Char) (s : String) : Int :=
  match s.toList.findIdx? (fun d => d = c) with
  | some i => (i : Int)
  | none => -1

/-- Clamp a JS slice index into `[0, len]`: negative indices count from
the end of the string. -/
def jsClamp (len : Nat) (i : Int) : Nat :=
  if i < 0 then (max ((len : Int) + i) 0).toNat else min i.toNat len

/-- JS `String.prototype.slice` with one argument. -/
def jsSlice1 (s : String) (start : Int) : String :=
  String.mk (s.toList.drop (jsClamp s.length start))

/-- JS `String.prototype.slice` with two arguments. -/
def jsSlice2 (s : String) (start fin : Int) : String :=
  let a := jsClamp s.length start
  let b := jsClamp s.length fin
  String.mk ((s.toList.drop a).take (b - a))

/-- Value of one character as a digit (`0-9`, `a-z`, `A-Z`); `99` marks a
character that is a digit in no radix the code uses. -/
def charVal (c : Char) : Nat :=
  if c.isDigit then c.toNat - 48
  else if 97 ≤ c.toNat ∧ c.toNat ≤ 122 then c.toNat - 87
  else if 65 ≤ c.toNat ∧ c.toNat ≤ 90 then c.toNat - 55
  else 99

/-- JS `parseInt(s, radix)` for the strings the code feeds it (no sign,
no leading whitespace, no `0x` prefix): the longest prefix of digits
valid in the radix, `none` for `NaN` when that prefix is empty. -/
def jsParseInt (s : String) (radix : Nat) : Option Int :=
  let ds := s.toList.takeWhile (fun c => charVal c < radix)
  if ds.isEmpty then none
  else some (ds.foldl (fun a c => a * (radix : Int) + (charVal c : Int)) 0)

/-- A JS number as used by `parseRepetition` and the repetition loop:
an integer, `Infinity`, or `NaN`. -/
inductive JSNum where
  | num (n : Int)
  | infinity
  | nan
deriving DecidableEq, Repr

/-- JS `<` on the numbers that occur (`NaN` compares false). -/
def jsLt : JSNum → JSNum → Bool
  | .num a, .num b => a < b
  | .num _, .infinity => true
  | .infinity, _ => false
  | _, .nan => false
  | .nan, _ => false

/-- JS `<=` on the numbers that occur (`NaN` compares false). -/
def jsLe : JSNum → JSNum → Bool
  | .num a, .num b => a ≤ b
  | .num _, .infinity => true
  | .infinity, .infinity => true
  | .infinity, .num _ => false
  | _, .nan => false
  | .nan, _ => false

/-- JS `>=` on the numbers that occur (`NaN` compares false). -/
def jsGe : JSNum → JSNum → Bool
  | .num a, .num b => a ≥ b
  | .infinity, _ => true
  | .num _, .infinity => false
  | _, .nan => false
  | .nan, _ => false

/-- JS unary `+` (`Number(...)`) on the slices `parseRepetition` builds:
those are either empty (giving `0`) or all digits. -/
def jsToNumber (s : String) : JSNum :=
  if s = "" then .num 0
  else if s.toList.all Char.isDigit then
    .num (s.toList.foldl (fun a c => a * 10 + (charVal c : Int)) 0)
  else .nan

/-- JS `String.prototype.toLowerCase` for the ASCII text the grammar
format allows: `A`-`Z` mapped down, all else unchanged. -/
def jsToLowerCase (s : String) : String :=
  String.mk (s.toList.map (fun c =>
    if 65 ≤ c.toNat ∧ c.toNat ≤ 90 then Char.ofNat (c.toNat + 32) else c))

/-- Helper for `jsSplit`: accumulate the current piece (reversed). -/
def jsSplitAux (sep : Char) : List Char → List Char → List String
  | [], acc => [String.mk acc.reverse]
  | c :: cs, acc =>
    if c = sep then String.mk acc.reverse :: jsSplitAux sep cs []
    else jsSplitAux sep cs (c :: acc)

/-- JS `String.prototype.split` with a single-character separator:
every occurrence splits, empty pieces are kept. -/
def jsSplit (s : String) (sep : Char) : List String :=
  jsSplitAux sep s.toList []

/-- JS `String.fromCharCode` for one code: `ToUint16` then the code
unit. -/
def jsFromCharCode (i : Int) : Char :=
  Char.ofNat (i % 65536).toNat

/-- The property names a plain JS object (`this.rules = {}`) inherits
from `Object.prototype` that are entirely lowercase — the only ones a
lookup under a lowercased key can hit (`constructor`, a function, and
the Annex-B `__proto__` accessor, an object; both truthy).  The other
inherited names (`hasOwnProperty`, `toString`, `valueOf`, ...) contain
an uppercase letter, and JS property lookup is case-sensitive. -/
def objectPrototypeProps : List String := ["constructor", "__proto__"]

/-- The `BASES` table of src/lib/parser.js lines 61-65. -/
def BASES (s : String) : Option Nat :=
  if s = "b" then some 2
  else if s = "d" then some 10
  else if s = "x" then some 16
  else none

/-- The combinator node kinds of src/lib/parser.js (lines 332-507).
A reference to a named rule is stored as its registry lookup key
(`parseSubRule` returns the shared `Rule` object found under
`token.toLowerCase()`), matching the two-phase registry design.
`InheritedProperty` is not a node class of the source: it stands for a
value that the registry lookup found on `Object.prototype` instead of
among the registered rules (the registry is a plain JS object), which
the code returns as a sub-rule like any other. -/
inductive ABNFRule where
  | RuleRef (name : String)
  | InheritedProperty (name : String)
  | OrRule (rules : List ABNFRule)
  | AndRule (rules : List ABNFRule)
  | OptionalRule (rule : ABNFRule)
  | RepetitionRule (min max : JSNum) (rule : ABNFRule)
  | CaseSensitiveStringRule (str : String)
  | CaseInsensitiveStringRule (str : String)

/-- Outcome of a `test` call: a consumed length, the `false` sentinel, or
a thrown `TypeError`. -/
inductive TestResult where
  | ok (n : Nat)
  | fail
  | err
deriving DecidableEq, Repr

/-- `CaseSensitiveStringRule.test` (src/lib/parser.js lines 485-489):
`code[ index ] === this.str && 1`.  An out-of-range read yields
`undefined`, which compares unequal, so the method returns `false`. -/
def CaseSensitiveStringRule.test (str : String) (code : List String)
    (index : Nat) : TestResult :=
  match code.get? index with
  | none => .fail
  | some e => if e = str then .ok 1 else .fail

/-- `CaseInsensitiveStringRule.test` (src/lib/parser.js lines 503-505):
`code[ index ].toLowerCase() === this.str && 1`.  An out-of-range read
yields `undefined`, and `undefined.toLowerCase()` throws a
`TypeError`. -/
def CaseInsensitiveStringRule.test (str : String) (code : List String)
    (index : Nat) : TestResult :=
  match code.get? index with
  | none => .err
  | some e => if jsToLowerCase e = str then .ok 1 else .fail

mutual

/-- Dispatch of `test` over the node kinds (src/lib/parser.js lines
332-507).  `fuel` bounds the call depth: the unbounded repetition loop
and recursion through named-rule references have no structural bound in
the source (`none` = budget exhausted, the JS code would still be
running).  A `RuleRef` resolves through `env` the way `Rule.test`
delegates to the rule object looked up in the registry; a missing entry
means `this.rule` is `undefined` and the call throws.  A value found on
`Object.prototype` instead of a registered rule has no `test` method,
so invoking it likewise throws a `TypeError`. -/
def ruleTest (env : List (String × ABNFRule)) :
    Nat → ABNFRule → List String → Nat → Option TestResult
  | 0, _, _, _ => none
  | fuel + 1, r, code, index =>
    match r with
    | .RuleRef name =>
      match env.lookup name with
      | none => some .err
      | some body => ruleTest env fuel body code index
    | .InheritedProperty _ => some .err
    | .OrRule rs => orTest env fuel rs code index
    | .AndRule rs => andTest env fuel rs code index 0
    | .OptionalRule r =>
      match ruleTest env fuel r code index with
      | none => none
      | some .err => some .err
      | some .fail => some (.ok 0)
      | some (.ok n) => some (.ok n)
    | .RepetitionRule mn mx r => repTest env fuel r mn mx code index 0 0
    | .CaseSensitiveStringRule s =>
      some (CaseSensitiveStringRule.test s code index)
    | .CaseInsensitiveStringRule s =>
      some (CaseInsensitiveStringRule.test s code index)
termination_by structural fuel _ _ _ => fuel

/-- `OrRule.test` (src/lib/parser.js lines 380-393): children tried in
declaration order at the same index; the first result that is not
`false` is returned; `false` when all children fail. -/
def orTest (env : List (String × ABNFRule)) :
    Nat → List ABNFRule → List String → Nat → Option TestResult
  | 0, _, _, _ => none
  | _ + 1, [], _, _ => some .fail
  | fuel + 1, r :: rs, code, index =>
    match ruleTest env fuel r code index with
    | none => none
    | some .err => some .err
    | some (.ok n) => some (.ok n)
    | some .fail => orTest env fuel rs code index
termination_by structural fuel _ _ _ => fuel

/-- `AndRule.test` (src/lib/parser.js lines 407-423): children tried in
order at increasing offsets, `len` accumulating the consumed lengths;
`false` as soon as one child fails. -/
def andTest (env : List (String × ABNFRule)) :
    Nat → List ABNFRule → List String → Nat → Nat → Option TestResult
  | 0, _, _, _, _ => none
  | _ + 1, [], _, _, len => some (.ok len)
  | fuel + 1, r :: rs, code, index, len =>
    match ruleTest env fuel r code (index + len) with
    | none => none
    | some .err => some .err
    | some .fail => some .fail
    | some (.ok n) => andTest env fuel rs code index (len + n)
termination_by structural fuel _ _ _ _ => fuel

/-- `RepetitionRule.test` (src/lib/parser.js lines 455-471): the loop
`for (i = 0; i < this.max; i++)`; on a child failure the method returns
`i >= this.min && i <= this.max && len` (so `len`, possibly `0`, when
the count is in bounds, else `false`); when the loop ends because `i`
reached `max` it returns `len`. -/
def repTest (env : List (String × ABNFRule)) :
    Nat → ABNFRule → JSNum → JSNum → List String → Nat → Nat → Nat →
    Option TestResult
  | 0, _, _, _, _, _, _, _ => none
  | fuel + 1, r, mn, mx, code, index, i, len =>
    if jsLt (.num i) mx then
      match ruleTest env fuel r code (index + len) with
      | none => none
      | some .err => some .err
      | some .fail =>
        some (if jsGe (.num i) mn && jsLe (.num i) mx then .ok len else .fail)
      | some (.ok n) => repTest env fuel r mn mx code index (i + 1) (len + n)
    else some (.ok len)
termination_by structural fuel _ _ _ _ _ _ _ => fuel

end

/-- Result of `parseRepetition` (src/lib/parser.js lines 253-260):
`min` is `0` when the token starts with `*`, else
`+( rep.slice( 0, rep.indexOf( "*" ) ) )`; `max` is `Infinity` when the
token ends with `*`, else `+( rep.slice( rep.indexOf( "*" ) + 1 ) )`. -/
structure Repetitions where
  min : JSNum
  max : JSNum
deriving DecidableEq, Repr

/-- `parseRepetition` (src/lib/parser.js lines 253-260), verbatim JS
slice arithmetic: for a token without `*`, `indexOf` is `-1`, so the
`min` slice is `slice(0, -1)` (the token without its last character). -/
def parseRepetition (rep : String) : Repetitions :=
  { min :=
      if jsSlice2 rep 0 1 = "*" then .num 0
      else jsToNumber (jsSlice2 rep 0 (jsIndexOf (Char.ofNat 42) rep))
    max :=
      if jsSlice1 rep (rep.length - 1) = "*" then .infinity
      else jsToNumber (jsSlice1 rep (jsIndexOf (Char.ofNat 42) rep + 1)) }

/-- `REPETITION.test(token)` for the regex `/^\d|(\d*\*\d*)$/`
(src/lib/parser.js line 55): the token starts with a digit, or some
suffix consists of digits, one `*`, and digits. -/
def repetitionTest (t : String) : Bool :=
  (match t.toList.head? with
   | some c => c.isDigit
   | none => false) ||
  (List.range (t.length + 1)).any (fun i =>
    let l := t.toList.drop i
    l.count (Char.ofNat 42) = 1 &&
    l.all (fun c => c.isDigit || c = Char.ofNat 42))

/-- `parseLiteral` (src/lib/parser.js lines 263-284).  The branch
condition is the raw JS truthiness test `if ( str.indexOf( "-" ) )`:
the range branch is taken whenever the index differs from `0` —
including `-1`, i.e. literals with no `-` at all.  In the range branch,
`[ min, max ] = str.slice( 2 ).split( "-" ).map( parseInt )` leaves
`max` `undefined` when there is no `-`; `new Range( min, max )` then
computes the `NaN` length `max - min + 1` and `Array(NaN)` throws a
`RangeError` (src/lib/core.js lines 6-19).  A negative length throws
the same way.  `parseInt` with the `BASES` entry missing defaults to
radix 10 for these digit strings. -/
def parseLiteral (str : String) : Except String ABNFRule :=
  let base := (BASES (jsSlice2 str 1 2)).getD 10
  if jsIndexOf (Char.ofNat 45) str ≠ 0 then
    let vals := (jsSplit (jsSlice1 str 2) (Char.ofNat 45)).map
      (fun v => jsParseInt v base)
    match (vals.get? 0).join, (vals.get? 1).join with
    | some mn, some mx =>
      if mx - mn + 1 < 0 then .error "RangeError: invalid array length"
      else
        .ok (.CaseSensitiveStringRule (String.mk
          ((List.range (mx - mn + 1).toNat).map
            (fun i => jsFromCharCode (mn + (i : Int))))))
    | _, _ => .error "RangeError: invalid array length"
  else
    let codes := (jsSplit (jsSlice1 str 2) (Char.ofNat 46)).map
      (fun v => jsParseInt v base)
    .ok (.CaseSensitiveStringRule (String.mk
      (codes.map (fun c => jsFromCharCode (c.getD 0)))))

/-- The closing step of `parseGroup` (src/lib/parser.js lines 203-206):
singleton collapsing for sequences and alternatives. -/
def parseGroupClose (parts : List (List ABNFRule)) : ABNFRule :=
  let mapped := parts.map (fun part =>
    match part with
    | [r] => r
    | _ => ABNFRule.AndRule part)
  match mapped with
  | [r] => r
  | _ => ABNFRule.OrRule mapped

mutual

/-- The body of the `while` loop of `parseGroup` (src/lib/parser.js
lines 178-207) together with its closing step.  `ctx.tokens` is the
mutable shifting token list, threaded explicitly; `parts`/`part` are
the accumulated alternatives and the open sequence.  The loop exits
when the token list is empty (`undefined` is falsy) or on the matching
`endToken`; the close wraps a multi-element `part` in an `AndRule`, a
single element stays bare, and likewise for `OrRule` over `parts`.
`fuel` bounds the call depth (each call consumes at least one token, so
`tokens.length + 2` is always enough); `0` is reported as an error. -/
def parseGroup (rules : List String) :
    Nat → List String → Option String → List (List ABNFRule) →
    List ABNFRule → Except String (ABNFRule × List String)
  | 0, _, _, _, _ => .error "out of fuel"
  | _ + 1, [], _, parts, part =>
    .ok (parseGroupClose (parts ++ [part]), [])
  | fuel + 1, t :: rest, endToken, parts, part =>
    if t = "/" then
      parseGroup rules fuel rest endToken (parts ++ [part]) []
    else if some t = endToken then
      .ok (parseGroupClose (parts ++ [part]), rest)
    else
      match parseSubRule rules fuel (t :: rest) with
      | .error e => .error e
      | .ok (r, rest') =>
        parseGroup rules fuel rest' endToken parts (part ++ [r])

/-- `parseSubRule` (src/lib/parser.js lines 210-250): shift one token
and dispatch on it.  Shifting an empty list gives `undefined` and the
later `token.charAt` call throws.  The final branch evaluates
`ctx.rules[ token.toLowerCase() ]` — a plain-object property access
that walks the prototype chain: a registered rule (modelled by the key
list) yields the shared `Rule` object, embedded as a `RuleRef` carrying
the lookup key, and otherwise a key such as `constructor` still finds a
truthy value inherited from `Object.prototype`, which the code returns
as the sub-rule.  Only when the lookup is falsy does the code reach
`throw new ABNFSyntaxError(...)` — but `ABNFSyntaxError` is an unbound
identifier in this module (it exists only in the older variant of
src/unnamed/part_002), and JS resolves the constructor reference before
evaluating its argument, so the raised exception is
`ReferenceError: ABNFSyntaxError is not defined` and the intended
`Undefined rule` message is never constructed. -/
def parseSubRule (rules : List String) :
    Nat → List String → Except String (ABNFRule × List String)
  | 0, _ => .error "out of fuel"
  | _ + 1, [] => .error "TypeError: token is undefined"
  | fuel + 1, t :: rest =>
    if t = "(" then
      parseGroup rules fuel rest (some ")") [] []
    else if t = "[" then
      match parseGroup rules fuel rest (some "]") [] [] with
      | .error e => .error e
      | .ok (r, rest') => .ok (.OptionalRule r, rest')
    else if jsSlice2 t 0 1 = "\"" then
      .ok (.CaseInsensitiveStringRule (jsSlice2 t 1 (-1)), rest)
    else if jsSlice2 t 0 1 = squote then
      .ok (.CaseSensitiveStringRule (jsSlice2 t 1 (-1)), rest)
    else if jsSlice2 t 0 1 = "%" then
      match parseLiteral t with
      | .error e => .error e
      | .ok r => .ok (r, rest)
    else if repetitionTest t then
      let reps := parseRepetition t
      match parseSubRule rules fuel rest with
      | .error e => .error e
      | .ok (r, rest') => .ok (.RepetitionRule reps.min reps.max r, rest')
    else
      if rules.contains (jsToLowerCase t) then
        .ok (.RuleRef (jsToLowerCase t), rest)
      else if objectPrototypeProps.contains (jsToLowerCase t) then
        .ok (.InheritedProperty (jsToLowerCase t), rest)
      else .error "ReferenceError: ABNFSyntaxError is not defined"

end

/-- `Rule.prepare` on one rule body (src/lib/parser.js lines 346-350):
resolve the body token list against the registry, with the `EOF`
(`undefined`) end token. -/
def resolveTokens (tokens : List String) (rules : List String) :
    Except String ABNFRule :=
  match parseGroup rules (2 * tokens.length + 2) tokens none [] [] with
  | .error e => .error e
  | .ok (r, _) => .ok r

/-- `nameFrom` (src/lib/parser.js lines 92-94, src/unnamed/part_001
lines 148-150): strip optional angle-bracket decoration from a rule
name token. -/
def nameFrom (t : String) : String :=
  if jsSlice2 t 0 1 = "<" then jsSlice2 t 1 (-1) else t

/-- Replace the entry for `k`, or append a new one, mirroring a JS
object property assignment on `tokensByRule`. -/
def mapSet (m : List (String × List String)) (k : String)
    (v : List String) : List (String × List String) :=
  match m with
  | [] => [(k, v)]
  | (k', v') :: rest =>
    if k' = k then (k, v) :: rest else (k', v') :: mapSet rest k v

/-- The token-grouping scan of the `Source` constructor
(src/unnamed/part_001 lines 196-215; src/lib/parser.js lines 139-158 is
the same loop, but there `this.tokensByRule` is never initialised).
Each token is paired with its successor: successor `=` starts a fresh
group under `nameFrom(token)`; successor `=/` fetches the existing
group for that name and appends an injected `/` token (a `TypeError` is
thrown when the group does not exist, since `undefined` has no `push`);
otherwise the token is appended to the active group unless it starts
with `=` or `;` (pushing with no active group is likewise a thrown
`TypeError`).  The state is the map plus the name of the active group;
only token values are tracked, since neither the grouping tests nor the
resolved combinator tree depend on token positions. -/
def groupLoop :
    List String → List (String × List String) → Option String →
    Except String (List (String × List String) × Option String)
  | t :: next :: rest, m, cur =>
    if next = "=" then
      groupLoop (next :: rest) (mapSet m (nameFrom t) []) (some (nameFrom t))
    else if next = "=/" then
      match m.lookup (nameFrom t) with
      | none => .error "TypeError: ruleTokens is undefined"
      | some l =>
        groupLoop (next :: rest) (mapSet m (nameFrom t) (l ++ ["/"]))
          (some (nameFrom t))
    else if jsSlice2 t 0 1 ≠ "=" ∧ jsSlice2 t 0 1 ≠ ";" then
      match cur with
      | none => .error "TypeError: ruleTokens is undefined"
      | some k =>
        match m.lookup k with
        | none => .error "TypeError: ruleTokens is undefined"
        | some l => groupLoop (next :: rest) (mapSet m k (l ++ [t])) cur
    else
      groupLoop (next :: rest) m cur
  | _, m, cur => .ok (m, cur)

/-- `tokensByRule`: the grouping scan plus the final-token step
(src/unnamed/part_001 lines 217-221): the last token, unless it is a
comment, is appended to the active group. -/
def tokensByRule (tokens : List String) :
    Except String (List (String × List String)) :=
  match groupLoop tokens [] none with
  | .error e => .error e
  | .ok (m, cur) =>
    match tokens.getLast? with
    | none => .error "TypeError: lastToken is undefined"
    | some last =>
      if jsSlice2 last 0 1 = ";" then .ok m
      else
        match cur with
        | none => .error "TypeError: ruleTokens is undefined"
        | some k =>
          match m.lookup k with
          | none => .error "TypeError: ruleTokens is undefined"
          | some l => .ok (mapSet m k (l ++ [last]))

/-- The token-count guard of the `Source$1` constructor
(src/unnamed/part_002 lines 252-265): lexed tokens are filtered of
comments, and fewer than 3 remaining tokens is a thrown `SyntaxError`;
only then is the `Source` object returned. -/
def buildSource (allTokens : List String) : Except String (List String) :=
  let tokens := allTokens.filter (fun t => jsSlice2 t 0 1 ≠ ";")
  if tokens.length < 3 then
    .error ("Expected at least 3 tokens in source string, found " ++
      toString tokens.length)
  else .ok tokens

/-!
Claim theorems.
-/

/-- C1: the claim says the range form `%x41-43` expands to the literal
"ABC" and the concatenation form `%d72.101.108.108.111` to "Hello".
The range form does expand to "ABC", but the concatenation branch of
`parseLiteral` is unreachable: `str.indexOf( "-" )` is `-1` — truthy —
for a dash-free literal, so `%d72.101.108.108.111` is processed as a
range, `max` comes out `undefined`, and `new Range( 72, undefined )`
throws a `RangeError` instead of producing the literal "Hello". -/
theorem C1_literal_expansion :
    parseLiteral "%x41-43" = .ok (.CaseSensitiveStringRule "ABC") ∧
    parseLiteral "%d72.101.108.108.111" =
      .error "RangeError: invalid array length" :=
  ⟨rfl, rfl⟩

/-- C2: the claim maps `*` to (0, unbounded), `N*` to (N, unbounded),
`*M` to (0, M), `N*M` to (N, M) — all of which hold — and a bare digit
`N` to min = max = N.  The last is false: for a token without `*`,
`rep.indexOf( "*" )` is `-1`, so the `min` slice is `slice( 0, -1 )` =
the empty string, and `parseRepetition( "5" )` yields min 0, max 5. -/
theorem C2_repetition_bounds :
    parseRepetition "*" = ⟨.num 0, .infinity⟩ ∧
    parseRepetition "2*" = ⟨.num 2, .infinity⟩ ∧
    parseRepetition "*3" = ⟨.num 0, .num 3⟩ ∧
    parseRepetition "2*3" = ⟨.num 2, .num 3⟩ ∧
    parseRepetition "5" = ⟨.num 0, .num 5⟩ ∧
    parseRepetition "5" ≠ ⟨.num 5, .num 5⟩ := by
  decide

/-- C3: the claim says `r = 2*3"a"` gives `false` on "a", 2 on "aa",
3 on "aaa" and 3 on "aaaa".  The last two hold, but on "a" and "aa" the
greedy loop of `RepetitionRule.test` probes one element past the end of
the input, and `CaseInsensitiveStringRule.test` calls `toLowerCase` on
the `undefined` element, throwing a `TypeError` instead of returning
`false` resp. 2.  Fuel 20 exceeds the call depth of every test below. -/
theorem C3_repetition_matching :
    resolveTokens ["2*3", "\"a\""] [] =
      .ok (.RepetitionRule (.num 2) (.num 3)
        (.CaseInsensitiveStringRule "a")) ∧
    ruleTest [] 20 (.RepetitionRule (.num 2) (.num 3)
      (.CaseInsensitiveStringRule "a")) ["a"] 0 = some .err ∧
    ruleTest [] 20 (.RepetitionRule (.num 2) (.num 3)
      (.CaseInsensitiveStringRule "a")) ["a", "a"] 0 = some .err ∧
    ruleTest [] 20 (.RepetitionRule (.num 2) (.num 3)
      (.CaseInsensitiveStringRule "a")) ["a", "a", "a"] 0 =
        some (.ok 3) ∧
    ruleTest [] 20 (.RepetitionRule (.num 2) (.num 3)
      (.CaseInsensitiveStringRule "a")) ["a", "a", "a", "a"] 0 =
        some (.ok 3) := by
  refine ⟨rfl, ?_, ?_, ?_, ?_⟩ <;> decide

/-- C4 counterexample: the claim says that for `r = "ab" / "a"` on the
input "ab", `test` returns the first alternative's success, a match of
length 2.  In the code every literal node consumes exactly one input
element, so on the character sequence ["a", "b"] the first alternative
fails (no single element equals "ab") and the result is 1, not 2. -/
theorem C4_counterexample :
    resolveTokens ["\"ab\"", "/", "\"a\""] [] =
      .ok (.OrRule [.CaseInsensitiveStringRule "ab",
        .CaseInsensitiveStringRule "a"]) ∧
    ruleTest [] 20 (.OrRule [.CaseInsensitiveStringRule "ab",
      .CaseInsensitiveStringRule "a"]) ["a", "b"] 0 ≠ some (.ok 2) := by
  refine ⟨rfl, ?_⟩
  decide

/-- C4 (amended): for `r = "ab" / "a"` on the input sequence
["a", "b"], `OrRule.test` tries the alternatives at the same start
index in declaration order; the first alternative `"ab"` fails, because
a literal node consumes exactly one input element and the element "a"
does not equal "ab"; `test` then returns the second alternative's
success, a match of length 1. -/
theorem C4_first_match_order :
    resolveTokens ["\"ab\"", "/", "\"a\""] [] =
      .ok (.OrRule [.CaseInsensitiveStringRule "ab",
        .CaseInsensitiveStringRule "a"]) ∧
    CaseInsensitiveStringRule.test "ab" ["a", "b"] 0 = .fail ∧
    CaseInsensitiveStringRule.test "a" ["a", "b"] 0 = .ok 1 ∧
    ruleTest [] 20 (.OrRule [.CaseInsensitiveStringRule "ab",
      .CaseInsensitiveStringRule "a"]) ["a", "b"] 0 = some (.ok 1) := by
  refine ⟨rfl, ?_, ?_, ?_⟩ <;> decide

/-- C5: the claim says a case-insensitive literal matches an input
element if and only if the two are equal under case folding, with
`r = "test"` matching "test" and "TEST".  The "test" instances hold,
but the code lowercases only the input element and compares it to the
stored literal verbatim (`code[ index ].toLowerCase() === this.str`),
so the literal node "TeSt" (from the grammar `r = "TeSt"`) fails
against the elements "TeSt" and "test" even though both equal "TeSt"
under case folding. -/
theorem C5_case_insensitive_literal :
    resolveTokens ["\"test\""] [] =
      .ok (.CaseInsensitiveStringRule "test") ∧
    CaseInsensitiveStringRule.test "test" ["test"] 0 = .ok 1 ∧
    CaseInsensitiveStringRule.test "test" ["TEST"] 0 = .ok 1 ∧
    resolveTokens ["\"TeSt\""] [] =
      .ok (.CaseInsensitiveStringRule "TeSt") ∧
    jsToLowerCase "TeSt" = jsToLowerCase "test" ∧
    CaseInsensitiveStringRule.test "TeSt" ["TeSt"] 0 = .fail ∧
    CaseInsensitiveStringRule.test "TeSt" ["test"] 0 = .fail := by
  refine ⟨rfl, ?_, ?_, rfl, ?_, ?_, ?_⟩ <;> decide

/-- C8: for every token list of fewer than 3 tokens, the `Source$1`
constructor throws its `SyntaxError` (the comment filter can only
shrink the list further) and no `Source` object is produced. -/
theorem C8_minimum_token_count (allTokens : List String)
    (h : allTokens.length < 3) :
    buildSource allTokens =
      .error ("Expected at least 3 tokens in source string, found " ++
        toString (allTokens.filter
          (fun t => jsSlice2 t 0 1 ≠ ";")).length) := by
  have hle : (allTokens.filter (fun t => jsSlice2 t 0 1 ≠ ";")).length ≤
      allTokens.length :=
    List.length_filter_le _ _
  simp only [buildSource, if_pos (lt_of_le_of_lt hle h)]

/-- Witness for C8 at the one-token source ["a"]. -/
theorem C8_minimum_token_count_witness :
    (["a"] : List String).length < 3 ∧
    buildSource ["a"] =
      .error "Expected at least 3 tokens in source string, found 1" :=
  ⟨by decide, C8_minimum_token_count ["a"] (by decide)⟩

/-- C10: at every index at or past the end of the input sequence,
`CaseSensitiveStringRule.test` returns `false` (the `undefined` element
compares unequal) while `CaseInsensitiveStringRule.test` throws a
`TypeError` (`undefined.toLowerCase()`); and such probes are reached
through `AndRule.test` and `RepetitionRule.test` on inputs shorter than
the grammar demands, here `"a" "b"` against the one-element input
["a"] and `2*3"a"` against ["a"]. -/
theorem C10_out_of_range_probes (s : String) (code : List String)
    (index : Nat) (h : code.length ≤ index) :
    CaseSensitiveStringRule.test s code index = .fail ∧
    CaseInsensitiveStringRule.test s code index = .err ∧
    ruleTest [] 20 (.AndRule [.CaseInsensitiveStringRule "a",
      .CaseInsensitiveStringRule "b"]) ["a"] 0 = some .err ∧
    ruleTest [] 20 (.RepetitionRule (.num 2) (.num 3)
      (.CaseInsensitiveStringRule "a")) ["a"] 0 = some .err := by
  have hg : code.get? index = none := List.get?_eq_none.mpr h
  refine ⟨?_, ?_, by decide, by decide⟩
  · unfold CaseSensitiveStringRule.test
    rw [hg]
  · unfold CaseInsensitiveStringRule.test
    rw [hg]

/-- Witness for C10 at the empty input, index 0, literal "x". -/
theorem C10_out_of_range_probes_witness :
    ([] : List String).length ≤ 0 ∧
    (CaseSensitiveStringRule.test "x" [] 0 = .fail ∧
     CaseInsensitiveStringRule.test "x" [] 0 = .err ∧
     ruleTest [] 20 (.AndRule [.CaseInsensitiveStringRule "a",
       .CaseInsensitiveStringRule "b"]) ["a"] 0 = some .err ∧
     ruleTest [] 20 (.RepetitionRule (.num 2) (.num 3)
       (.CaseInsensitiveStringRule "a")) ["a"] 0 = some .err) :=
  ⟨by decide, C10_out_of_range_probes "x" [] 0 (by decide)⟩

/-- Helper: `parseSubRule` on a token that reaches the rule-name branch
and hits the registry returns the shared rule object. -/
theorem parseSubRule_hit (reg : List String) (fuel : Nat) (t : String)
    (rest : List String)
    (h1 : t ≠ "(") (h2 : t ≠ "[")
    (h3 : jsSlice2 t 0 1 ≠ "\"") (h4 : jsSlice2 t 0 1 ≠ squote)
    (h5 : jsSlice2 t 0 1 ≠ "%") (h6 : repetitionTest t = false)
    (hc : jsToLowerCase t ∈ reg) :
    parseSubRule reg (fuel + 1) (t :: rest) =
      .ok (.RuleRef (jsToLowerCase t), rest) := by
  simp [parseSubRule, h1, h2, h3, h4, h5, h6, hc]

/-- Helper: `parseGroup` on the one-token body `[t]`, `t` a known rule
name, yields the bare reference. -/
theorem parseGroup_single (reg : List String) (fuel : Nat) (t : String)
    (h0 : t ≠ "/") (h1 : t ≠ "(") (h2 : t ≠ "[")
    (h3 : jsSlice2 t 0 1 ≠ "\"") (h4 : jsSlice2 t 0 1 ≠ squote)
    (h5 : jsSlice2 t 0 1 ≠ "%") (h6 : repetitionTest t = false)
    (hc : jsToLowerCase t ∈ reg) :
    parseGroup reg (fuel + 1 + 1) [t] none [] [] =
      .ok (.RuleRef (jsToLowerCase t), []) := by
  have hs := parseSubRule_hit reg fuel t [] h1 h2 h3 h4 h5 h6 hc
  simp [parseGroup, h0, hs, parseGroupClose]

/-- Helper: `parseGroup` on the parenthesized body `( t )` yields the
bare reference — the singleton inner group is not wrapped. -/
theorem parseGroup_paren (reg : List String) (fuel : Nat) (t : String)
    (h0 : t ≠ "/") (h1 : t ≠ "(") (h2 : t ≠ "[")
    (h3 : jsSlice2 t 0 1 ≠ "\"") (h4 : jsSlice2 t 0 1 ≠ squote)
    (h5 : jsSlice2 t 0 1 ≠ "%") (h6 : repetitionTest t = false)
    (hc : jsToLowerCase t ∈ reg) (h8 : t ≠ ")") :
    parseGroup reg (fuel + 1 + 1 + 1 + 1) ["(", t, ")"] none [] [] =
      .ok (.RuleRef (jsToLowerCase t), []) := by
  have hs := parseSubRule_hit reg fuel t [")"] h1 h2 h3 h4 h5 h6 hc
  have hinner : parseGroup reg (fuel + 1 + 1) [t, ")"] (some ")") [] [] =
      .ok (.RuleRef (jsToLowerCase t), []) := by
    simp [parseGroup, h0, h8, hs, parseGroupClose]
  have hopen : parseSubRule reg (fuel + 1 + 1 + 1) ["(", t, ")"] =
      .ok (.RuleRef (jsToLowerCase t), []) := by
    simp [parseSubRule, hinner]
  simp [parseGroup, hopen, parseGroupClose]

/-- Helper: `parseGroup` on the bracketed body `[ t ]` yields only the
`Optional` wrapper around the bare reference. -/
theorem parseGroup_bracket (reg : List String) (fuel : Nat) (t : String)
    (h0 : t ≠ "/") (h1 : t ≠ "(") (h2 : t ≠ "[")
    (h3 : jsSlice2 t 0 1 ≠ "\"") (h4 : jsSlice2 t 0 1 ≠ squote)
    (h5 : jsSlice2 t 0 1 ≠ "%") (h6 : repetitionTest t = false)
    (hc : jsToLowerCase t ∈ reg) (h9 : t ≠ "]") :
    parseGroup reg (fuel + 1 + 1 + 1 + 1) ["[", t, "]"] none [] [] =
      .ok (.OptionalRule (.RuleRef (jsToLowerCase t)), []) := by
  have hs := parseSubRule_hit reg fuel t ["]"] h1 h2 h3 h4 h5 h6 hc
  have hinner : parseGroup reg (fuel + 1 + 1) [t, "]"] (some "]") [] [] =
      .ok (.RuleRef (jsToLowerCase t), []) := by
    simp [parseGroup, h0, h9, hs, parseGroupClose]
  have hopt : parseSubRule reg (fuel + 1 + 1 + 1) ["[", t, "]"] =
      .ok (.OptionalRule (.RuleRef (jsToLowerCase t)), []) := by
    simp [parseSubRule, hinner]
  simp [parseGroup, hopt, parseGroupClose]

/-- C7: the claim says a reference to a rule name absent from the
registry aborts compilation with an UndefinedRuleError-style error
whose message names the exact offending identifier.  The code does
abort for the ordinary unknown name `rule9`, but the throw site
`new ABNFSyntaxError(...)` references an identifier that is unbound in
src/lib/parser.js — the class exists only in the older
src/unnamed/part_002 variant — and JS resolves the constructor
reference before evaluating its argument, so the raised exception is
`ReferenceError: ABNFSyntaxError is not defined`: the intended
`Undefined rule: '<token>'` message is never constructed and the
identifier is not named.  Moreover the registry is a plain JS object,
so for the lexable rule name `constructor` — absent from the (here
empty) registry — the lookup finds the truthy inherited
`Object.prototype.constructor` and compilation does not abort at all:
the inherited function is spliced into the resolved grammar as a
sub-rule, whose later `test` invocation throws a `TypeError`. -/
theorem C7_undefined_rule :
    parseSubRule [] 1 ["rule9"] =
      .error "ReferenceError: ABNFSyntaxError is not defined" ∧
    resolveTokens ["rule9"] [] =
      .error "ReferenceError: ABNFSyntaxError is not defined" ∧
    parseSubRule [] 1 ["constructor"] =
      .ok (.InheritedProperty "constructor", []) ∧
    resolveTokens ["constructor"] [] =
      .ok (.InheritedProperty "constructor") ∧
    ruleTest [] 20 (.InheritedProperty "constructor") ["x"] 0 = some .err :=
  ⟨rfl, rfl, rfl, rfl, rfl⟩

/-- C9: a rule body (or parenthesized/bracketed group) that accumulates
exactly one alternative with exactly one element resolves to that sole
element's node directly: `r = rule1` yields the bare reference node,
`r = (rule1)` likewise, and `r = [rule1]` yields only the `Optional`
wrapper around the bare node — never a one-element `And` or `Or`
(`parseGroup` wraps a `part` in `AndRule` only when it has more than
one element, and the alternatives in `OrRule` only when there is more
than one alternative). -/
theorem C9_singleton_collapse (t : String) (reg : List String)
    (h0 : t ≠ "/") (h1 : t ≠ "(") (h2 : t ≠ "[")
    (h3 : jsSlice2 t 0 1 ≠ "\"") (h4 : jsSlice2 t 0 1 ≠ squote)
    (h5 : jsSlice2 t 0 1 ≠ "%") (h6 : repetitionTest t = false)
    (hmem : jsToLowerCase t ∈ reg) (h8 : t ≠ ")") (h9 : t ≠ "]") :
    resolveTokens [t] reg = .ok (.RuleRef (jsToLowerCase t)) ∧
    resolveTokens ["(", t, ")"] reg = .ok (.RuleRef (jsToLowerCase t)) ∧
    resolveTokens ["[", t, "]"] reg =
      .ok (.OptionalRule (.RuleRef (jsToLowerCase t))) := by
  refine ⟨?_, ?_, ?_⟩
  · unfold resolveTokens
    rw [show parseGroup reg (2 * ([t] : List String).length + 2)
        [t] none [] [] = .ok (.RuleRef (jsToLowerCase t), []) from
      parseGroup_single reg 2 t h0 h1 h2 h3 h4 h5 h6 hmem]
  · unfold resolveTokens
    rw [show parseGroup reg (2 * (["(", t, ")"] : List String).length + 2)
        ["(", t, ")"] none [] [] = .ok (.RuleRef (jsToLowerCase t), []) from
      parseGroup_paren reg 4 t h0 h1 h2 h3 h4 h5 h6 hmem h8]
  · unfold resolveTokens
    rw [show parseGroup reg (2 * (["[", t, "]"] : List String).length + 2)
        ["[", t, "]"] none [] [] =
        .ok (.OptionalRule (.RuleRef (jsToLowerCase t)), []) from
      parseGroup_bracket reg 4 t h0 h1 h2 h3 h4 h5 h6 hmem h9]

/-- Witness for C9 at the token "rule1" and the registry ["rule1"]. -/
theorem C9_singleton_collapse_witness :
    jsToLowerCase "rule1" ∈ ["rule1"] ∧
    (resolveTokens ["rule1"] ["rule1"] = .ok (.RuleRef "rule1") ∧
    resolveTokens ["(", "rule1", ")"] ["rule1"] = .ok (.RuleRef "rule1") ∧
    resolveTokens ["[", "rule1", "]"] ["rule1"] =
      .ok (.OptionalRule (.RuleRef "rule1"))) :=
  ⟨by decide,
   C9_singleton_collapse "rule1" ["rule1"] (by decide) (by decide)
     (by decide) (by decide) (by decide) (by decide) (by decide)
     (by decide) (by decide) (by decide)⟩

/-- Helper: a JS property assignment on the empty map. -/
theorem mapSet_nil (k : String) (v : List String) : mapSet [] k v = [(k, v)] :=
  rfl

/-- Helper: a JS property assignment replacing the front entry. -/
theorem mapSet_head (k : String) (v w : List String)
    (m : List (String × List String)) :
    mapSet ((k, v) :: m) k w = (k, w) :: m := by
  simp [mapSet]

/-- Helper: property lookup finding the front entry. -/
theorem lookup_head (k : String) (v : List String)
    (m : List (String × List String)) :
    List.lookup k ((k, v) :: m) = some v := by
  simp [List.lookup]

/-- Helper: a grouping step whose successor token is `=` opens a fresh
group under the current token's name. -/
theorem groupLoop_new (t : String) (rest : List String)
    (m : List (String × List String)) (cur : Option String) :
    groupLoop (t :: "=" :: rest) m cur =
      groupLoop ("=" :: rest) (mapSet m (nameFrom t) [])
        (some (nameFrom t)) := by
  simp [groupLoop]

/-- Helper: a grouping step whose successor token is `=/` appends an
injected `/` to the existing group of the current token's name. -/
theorem groupLoop_cont (t : String) (rest : List String)
    (m : List (String × List String)) (cur : Option String)
    (l : List String) (hl : List.lookup (nameFrom t) m = some l) :
    groupLoop (t :: "=/" :: rest) m cur =
      groupLoop ("=/" :: rest) (mapSet m (nameFrom t) (l ++ ["/"]))
        (some (nameFrom t)) := by
  simp [groupLoop, hl]

/-- Helper: the `=` token itself is dropped by the grouping scan. -/
theorem groupLoop_skip_def (next : String) (rest : List String)
    (m : List (String × List String)) (cur : Option String)
    (hn1 : next ≠ "=") (hn2 : next ≠ "=/") :
    groupLoop ("=" :: next :: rest) m cur = groupLoop (next :: rest) m cur := by
  simp [groupLoop, hn1, hn2, show jsSlice2 "=" 0 1 = "=" from rfl]

/-- Helper: the `=/` token itself is dropped by the grouping scan. -/
theorem groupLoop_skip_cont (next : String) (rest : List String)
    (m : List (String × List String)) (cur : Option String)
    (hn1 : next ≠ "=") (hn2 : next ≠ "=/") :
    groupLoop ("=/" :: next :: rest) m cur = groupLoop (next :: rest) m cur := by
  simp [groupLoop, hn1, hn2, show jsSlice2 "=/" 0 1 = "=" from rfl]

/-- Helper: an ordinary token is appended to the active group. -/
theorem groupLoop_push (t next : String) (rest : List String)
    (m : List (String × List String)) (k : String) (l : List String)
    (ht1 : jsSlice2 t 0 1 ≠ "=") (ht2 : jsSlice2 t 0 1 ≠ ";")
    (hn1 : next ≠ "=") (hn2 : next ≠ "=/")
    (hl : List.lookup k m = some l) :
    groupLoop (t :: next :: rest) m (some k) =
      groupLoop (next :: rest) (mapSet m k (l ++ [t])) (some k) := by
  simp [groupLoop, ht1, ht2, hn1, hn2, hl]

/-- Helper: the scan stops when one token remains (the loop pairs each
token with its successor). -/
theorem groupLoop_end (t : String) (m : List (String × List String))
    (cur : Option String) :
    groupLoop [t] m cur = .ok (m, cur) := by
  simp [groupLoop]

/-- C6: a rule defined as `rule = a / b` and continued with
`rule =/ c` groups into exactly the same token list — the continuation
appends an injected `/` and then `c` to the existing group — as the
inline definition `rule = a / b / c`, namely `[a, /, b, /, c]` under
the rule's name; resolution of that rule against any registry therefore
produces exactly the same combinator tree.  The hypotheses say that
`a`, `b`, `c` are ordinary body tokens (not starting with `=` or `;`)
and that `R` is an ordinary rule-name token. -/
theorem C6_continuation_equiv (R a b c : String)
    (hR : jsSlice2 R 0 1 ≠ "=")
    (ha : jsSlice2 a 0 1 ≠ "=" ∧ jsSlice2 a 0 1 ≠ ";")
    (hb : jsSlice2 b 0 1 ≠ "=" ∧ jsSlice2 b 0 1 ≠ ";")
    (hcc : jsSlice2 c 0 1 ≠ "=" ∧ jsSlice2 c 0 1 ≠ ";") :
    tokensByRule [R, "=", a, "/", b, R, "=/", c] =
      tokensByRule [R, "=", a, "/", b, "/", c] ∧
    tokensByRule [R, "=", a, "/", b, R, "=/", c] =
      .ok [(nameFrom R, [a, "/", b, "/", c])] ∧
    ∀ reg : List String,
      Except.map (fun m => (List.lookup (nameFrom R) m).map
          (fun body => resolveTokens body reg))
        (tokensByRule [R, "=", a, "/", b, R, "=/", c]) =
      Except.map (fun m => (List.lookup (nameFrom R) m).map
          (fun body => resolveTokens body reg))
        (tokensByRule [R, "=", a, "/", b, "/", c]) := by
  have ha1 : a ≠ "=" := fun h => ha.1 (by rw [h]; rfl)
  have ha2 : a ≠ "=/" := fun h => ha.1 (by rw [h]; rfl)
  have hb1 : b ≠ "=" := fun h => hb.1 (by rw [h]; rfl)
  have hb2 : b ≠ "=/" := fun h => hb.1 (by rw [h]; rfl)
  have hc1 : c ≠ "=" := fun h => hcc.1 (by rw [h]; rfl)
  have hc2 : c ≠ "=/" := fun h => hcc.1 (by rw [h]; rfl)
  have hR1 : R ≠ "=" := fun h => hR (by rw [h]; rfl)
  have hR2 : R ≠ "=/" := fun h => hR (by rw [h]; rfl)
  have hsl : jsSlice2 "/" 0 1 ≠ "=" := by decide
  have hsl2 : jsSlice2 "/" 0 1 ≠ ";" := by decide
  have hne1 : ("/" : String) ≠ "=" := by decide
  have hne2 : ("/" : String) ≠ "=/" := by decide
  have g1 : groupLoop [R, "=", a, "/", b, R, "=/", c] [] none =
      .ok ([(nameFrom R, [a, "/", b, "/"])], some (nameFrom R)) := by
    rw [groupLoop_new, mapSet_nil,
        groupLoop_skip_def a _ _ _ ha1 ha2,
        groupLoop_push a "/" _ _ _ _ ha.1 ha.2 hne1 hne2 (lookup_head _ _ _),
        mapSet_head,
        groupLoop_push "/" b _ _ _ _ hsl hsl2 hb1 hb2 (lookup_head _ _ _),
        mapSet_head,
        groupLoop_push b R _ _ _ _ hb.1 hb.2 hR1 hR2 (lookup_head _ _ _),
        mapSet_head,
        groupLoop_cont R _ _ _ _ (lookup_head _ _ _),
        mapSet_head,
        groupLoop_skip_cont c _ _ _ hc1 hc2,
        groupLoop_end]
    simp
  have g2 : groupLoop [R, "=", a, "/", b, "/", c] [] none =
      .ok ([(nameFrom R, [a, "/", b, "/"])], some (nameFrom R)) := by
    rw [groupLoop_new, mapSet_nil,
        groupLoop_skip_def a _ _ _ ha1 ha2,
        groupLoop_push a "/" _ _ _ _ ha.1 ha.2 hne1 hne2 (lookup_head _ _ _),
        mapSet_head,
        groupLoop_push "/" b _ _ _ _ hsl hsl2 hb1 hb2 (lookup_head _ _ _),
        mapSet_head,
        groupLoop_push b "/" _ _ _ _ hb.1 hb.2 hne1 hne2 (lookup_head _ _ _),
        mapSet_head,
        groupLoop_push "/" c _ _ _ _ hsl hsl2 hc1 hc2 (lookup_head _ _ _),
        mapSet_head,
        groupLoop_end]
    simp
  have key : tokensByRule [R, "=", a, "/", b, R, "=/", c] =
      .ok [(nameFrom R, [a, "/", b, "/", c])] := by
    unfold tokensByRule
    rw [g1]
    simp [hcc.2, lookup_head, mapSet_head]
  have key2 : tokensByRule [R, "=", a, "/", b, "/", c] =
      .ok [(nameFrom R, [a, "/", b, "/", c])] := by
    unfold tokensByRule
    rw [g2]
    simp [hcc.2, lookup_head, mapSet_head]
  refine ⟨key.trans key2.symm, key, fun reg => ?_⟩
  rw [key, key2]

/-- Witness for C6 at the grammar `rule = a / b` + `rule =/ c` versus
`rule = a / b / c`. -/
theorem C6_continuation_equiv_witness :
    (jsSlice2 "rule" 0 1 ≠ "=" ∧ jsSlice2 "a" 0 1 ≠ "=") ∧
    (tokensByRule ["rule", "=", "a", "/", "b", "rule", "=/", "c"] =
      tokensByRule ["rule", "=", "a", "/", "b", "/", "c"] ∧
    tokensByRule ["rule", "=", "a", "/", "b", "rule", "=/", "c"] =
      .ok [(nameFrom "rule", ["a", "/", "b", "/", "c"])] ∧
    ∀ reg : List String,
      Except.map (fun m => (List.lookup (nameFrom "rule") m).map
          (fun body => resolveTokens body reg))
        (tokensByRule ["rule", "=", "a", "/", "b", "rule", "=/", "c"]) =
      Except.map (fun m => (List.lookup (nameFrom "rule") m).map
          (fun body => resolveTokens body reg))
        (tokensByRule ["rule", "=", "a", "/", "b", "/", "c"])) :=
  ⟨⟨by decide, by decide⟩,
   C6_continuation_equiv "rule" "a" "b" "c" (by decide)
     ⟨by decide, by decide⟩ ⟨by decide, by decide⟩ ⟨by decide, by decide⟩⟩

end ABNF
